import Mathlib

/-!
Shallow embedding of the fn_nas remote-telemetry integration
(custom_components/fn_nas): coordinator command channel, snapshot
orchestrator, disk extractor, system-manager mount filter, VM control.
Python dicts are modelled as association lists, machine floats as exact
rationals, exceptions as `Option`/`Except`, and the remote host as an
explicit environment record. Python string primitives (strip/upper/split/in)
are modelled character-by-character so that every definition evaluates inside
the kernel.
-/

namespace FnNas

/-! ## Python string primitives -/

/-- Python `str.strip()` on a character list. -/
def pyStripList (l : List Char) : List Char :=
  ((l.dropWhile Char.isWhitespace).reverse.dropWhile Char.isWhitespace).reverse

/-- Python `str.strip()`. -/
def pyStrip (s : String) : String := .mk (pyStripList s.toList)

/-- Python `str.upper()` (ASCII). -/
def pyUpper (s : String) : String := .mk (s.toList.map Char.toUpper)

/-- Python `str.lower()` (ASCII). -/
def pyLower (s : String) : String := .mk (s.toList.map Char.toLower)

/-- Helper for `pySplit`: accumulate the current word (reversed) while
scanning. -/
def pySplitAux : List Char → List Char → List (List Char)
  | [], acc => if acc.isEmpty then [] else [acc.reverse]
  | c :: cs, acc =>
    if c.isWhitespace then
      if acc.isEmpty then pySplitAux cs [] else acc.reverse :: pySplitAux cs []
    else pySplitAux cs (c :: acc)

/-- Python `str.split()` with no argument: split on whitespace runs,
dropping empty pieces. -/
def pySplit (s : String) : List String :=
  (pySplitAux s.toList []).map String.mk

/-- Helper for `pySplitOnChar`. -/
def pySplitOnCharAux (sep : Char) : List Char → List Char → List (List Char)
  | [], acc => [acc.reverse]
  | c :: cs, acc =>
    if c == sep then acc.reverse :: pySplitOnCharAux sep cs []
    else pySplitOnCharAux sep cs (c :: acc)

/-- Python `str.split(sep)` for a one-character separator (keeps empty
pieces; the empty string yields `[""]`, as in Python). -/
def pySplitOnChar (sep : Char) (s : String) : List String :=
  (pySplitOnCharAux sep s.toList []).map String.mk

/-- Python `needle in haystack` for strings. -/
def strContains (haystack needle : String) : Bool :=
  decide (needle.toList <:+: haystack.toList)

/-- Python `str.startswith`. -/
def pyStartsWith (s pre : String) : Bool :=
  pre.toList.isPrefixOf s.toList

/-- Python `str.isdigit()` restricted to ASCII: nonempty and all digits. -/
def pyIsDigit (s : String) : Bool :=
  ¬ s.isEmpty && s.toList.all Char.isDigit

/-- Python `int(s)` for a nonnegative decimal string, `none` on anything
else (a raised `ValueError`). -/
def pyInt (s : String) : Option Int :=
  if pyIsDigit s then some (s.toList.foldl (fun n c => n * 10 + (c.toNat - 48)) 0)
  else none

/-! ## Disk health mapping (disk_manager.py, `_get_full_disk_info` lines 443-469) -/

/-- The literal `health_map` dict from `_get_full_disk_info`. -/
def health_map : List (String × String) :=
  [("PASSED", "良好"),
   ("PASS", "良好"),
   ("OK", "良好"),
   ("GOOD", "良好"),
   ("FAILED", "故障"),
   ("FAIL", "故障"),
   ("ERROR", "错误"),
   ("WARNING", "警告"),
   ("CRITICAL", "严重"),
   ("UNKNOWN", "未知"),
   ("NOT AVAILABLE", "不可用")]

/-- `health_map.get(raw_health.strip().upper(), "未知")` — the health
normalisation applied to the raw SMART health string. -/
def mapHealth (raw : String) : String :=
  (health_map.lookup (pyUpper (pyStrip raw))).getD "未知"

/-! ## Root-level /vol mount filter (system_manager.py, `is_root_vol_mount`) -/

/-- `SystemManager.is_root_vol_mount`, translated clause by clause. -/
def is_root_vol_mount (mount_point : String) : Bool :=
  if mount_point.isEmpty || !(pyStartsWith mount_point "/vol") then false
  else
    let remainder := mount_point.drop 4
    if remainder.isEmpty then true
    else if pyIsDigit remainder then true
    else if !(remainder.toList.contains '/') && decide (remainder.length ≤ 3) then true
    else false

/-- Stated from the spec's words (for the refinement check of C7): accepts
when, after stripping "/vol", the remainder is empty, purely numeric, or a
short (≤3 character) alphanumeric suffix with no path separator. -/
def specRootVolCriterion (mount_point : String) : Bool :=
  pyStartsWith mount_point "/vol" &&
    (let r := mount_point.drop 4
     r.isEmpty || pyIsDigit r ||
       (decide (r.length ≤ 3) && r.toList.all Char.isAlphanum &&
         !(r.toList.contains '/')))

/-- The amended acceptance criterion: as the spec's, but the short suffix may
contain arbitrary non-separator characters, not only alphanumerics. -/
def amendedRootVolCriterion (mount_point : String) : Bool :=
  pyStartsWith mount_point "/vol" &&
    (let r := mount_point.drop 4
     r.isEmpty || pyIsDigit r ||
       (decide (r.length ≤ 3) && !(r.toList.contains '/')))

/-! ## Capacity formatting (disk_manager.py, `_format_capacity`)

The Python code removes commas, searches the string with the pattern
`(\d+(?:\.\d+)?)\s*([KMGT]?B|bytes?)` (IGNORECASE), converts the number to
bytes by the matched unit, and re-renders at binary scale with one decimal
place. The regex is modelled by a deterministic scanner (equivalent for this
pattern, whose backtracking can never succeed where the greedy scan fails);
the machine floats are modelled as exact rationals, `"%.1f"` as rounding of
ten times the value. -/

/-- Split a character list into a maximal digit prefix and the rest. -/
def takeDigits : List Char → List Char × List Char
  | [] => ([], [])
  | c :: cs =>
    if c.isDigit then
      let r := takeDigits cs
      (c :: r.1, r.2)
    else ([], c :: cs)

/-- Case-insensitive `B`. -/
def isBChar (c : Char) : Bool := c == 'B' || c == 'b'

/-- Case-insensitive character class `[KMGT]`. -/
def isKMGTChar (c : Char) : Bool :=
  c == 'K' || c == 'M' || c == 'G' || c == 'T' ||
  c == 'k' || c == 'm' || c == 'g' || c == 't'

/-- The regex alternative `bytes?` (case-insensitive). Unreachable in
practice because `[KMGT]?B` already matches a leading `b`, but kept to
mirror the source pattern. -/
def matchBytesAlt : List Char → Option (List Char)
  | b :: y :: t :: e :: rest =>
    if (b == 'b' || b == 'B') && (y == 'y' || y == 'Y') &&
       (t == 't' || t == 'T') && (e == 'e' || e == 'E') then
      match rest with
      | s :: _ => if s == 's' || s == 'S' then some [b, y, t, e, s] else some [b, y, t, e]
      | [] => some [b, y, t, e]
    else none
  | _ => none

/-- The regex alternation `[KMGT]?B|bytes?` (ordered, case-insensitive). -/
def matchUnit : List Char → Option (List Char)
  | [] => none
  | [c] => if isBChar c then some [c] else none
  | c1 :: c2 :: rest =>
    if isKMGTChar c1 && isBChar c2 then some [c1, c2]
    else if isBChar c1 then some [c1]
    else matchBytesAlt (c1 :: c2 :: rest)

/-- Try the whole pattern anchored at the head of the list; returns
(group 1, group 2). -/
def matchNumUnitAt (l : List Char) : Option (List Char × List Char) :=
  let d := takeDigits l
  if d.1.isEmpty then none
  else
    let fr : List Char × List Char :=
      match d.2 with
      | '.' :: r =>
        let fd := takeDigits r
        if fd.1.isEmpty then ([], d.2) else ('.' :: fd.1, fd.2)
      | _ => ([], d.2)
    let rest := fr.2.dropWhile Char.isWhitespace
    match matchUnit rest with
    | some u => some (d.1 ++ fr.1, u)
    | none => none

/-- `re.search` of the pattern: leftmost match. -/
def searchNumUnit : List Char → Option (List Char × List Char)
  | [] => none
  | c :: cs =>
    match matchNumUnitAt (c :: cs) with
    | some r => some r
    | none => searchNumUnit cs

/-- Value of a digit run. -/
def digitsToNat (l : List Char) : Nat :=
  l.foldl (fun n c => n * 10 + (c.toNat - 48)) 0

/-- An exact fraction, modelling the Python float values flowing through
`_format_capacity` (every operation there is exact on the rationals; a
transparent representation is used so the kernel can evaluate it). -/
structure Frac where
  num : Int
  den : Nat
deriving Repr, DecidableEq

/-- A natural number as a fraction. -/
def Frac.ofNat (n : Nat) : Frac := ⟨n, 1⟩

/-- Multiplication by a natural number. -/
def Frac.mulNat (q : Frac) (n : Nat) : Frac := ⟨q.num * n, q.den⟩

/-- Division by a natural number. -/
def Frac.divNat (q : Frac) (n : Nat) : Frac := ⟨q.num, q.den * n⟩

/-- Comparison of fractions (cross-multiplied; denominators here are always
positive). -/
def Frac.le (q r : Frac) : Prop := q.num * r.den ≤ r.num * q.den

instance (q r : Frac) : Decidable (Frac.le q r) := by
  unfold Frac.le
  infer_instance

/-- `q ≥ r` on fractions. -/
def Frac.ge (q r : Frac) : Prop := Frac.le r q

instance (q r : Frac) : Decidable (Frac.ge q r) := by
  unfold Frac.ge
  infer_instance

/-- Python `float()` of the matched group 1 (digits with optional fractional
part), as an exact fraction. -/
def parseDecimal (l : List Char) : Frac :=
  let d := takeDigits l
  match d.2 with
  | '.' :: fr =>
    ⟨(digitsToNat d.1 : Int) * (10 ^ fr.length : Nat) + (digitsToNat fr : Int),
     10 ^ fr.length⟩
  | _ => ⟨digitsToNat d.1, 1⟩

/-- The unit-to-bytes conversion table of `_format_capacity` (applied to the
upper-cased matched unit). -/
def unitToBytes (unit : String) (value : Frac) : Frac :=
  if unit = "B" ∨ unit = "BYTE" ∨ unit = "BYTES" then value
  else if unit = "KB" ∨ unit = "KIB" then value.mulNat 1024
  else if unit = "MB" ∨ unit = "MIB" then (value.mulNat 1024).mulNat 1024
  else if unit = "GB" ∨ unit = "GIB" then
    ((value.mulNat 1024).mulNat 1024).mulNat 1024
  else if unit = "TB" ∨ unit = "TIB" then
    (((value.mulNat 1024).mulNat 1024).mulNat 1024).mulNat 1024
  else value

/-- `re.findall(r'\d+', s)`: the maximal digit runs, in order. -/
def digitRunsAux : List Char → List Char → List (List Char)
  | [], acc => if acc.isEmpty then [] else [acc.reverse]
  | c :: cs, acc =>
    if c.isDigit then digitRunsAux cs (c :: acc)
    else if acc.isEmpty then digitRunsAux cs []
    else acc.reverse :: digitRunsAux cs []

/-- Python `max(runs, key=len)`: the first run of maximal length. -/
def maxByLen (l : List (List Char)) : List Char :=
  l.foldl (fun best x => if x.length > best.length then x else best) (l.headD [])

/-- Rounding to the nearest integer (halves up): ⌊x + 1/2⌋, computed on the
numerator and denominator so it evaluates inside the kernel. -/
def ratRound (x : Frac) : Int :=
  Int.fdiv (2 * x.num + (x.den : Int)) (2 * (x.den : Int))

/-- Python `f"{x:.1f}"` on a nonnegative value, with the float modelled as an
exact fraction: one decimal digit after rounding. -/
def fmt1 (q : Frac) : String :=
  let n := ratRound (q.mulNat 10)
  toString (n / 10) ++ "." ++ toString (n % 10)

/-- The final tiering of `_format_capacity`: re-render at binary (1024)
scale using the largest fitting unit with one decimal place. -/
def renderBytes (bytes_value : Frac) : String :=
  if bytes_value.ge (.ofNat (1024 ^ 4)) then fmt1 (bytes_value.divNat (1024 ^ 4)) ++ " TB"
  else if bytes_value.ge (.ofNat (1024 ^ 3)) then fmt1 (bytes_value.divNat (1024 ^ 3)) ++ " GB"
  else if bytes_value.ge (.ofNat (1024 ^ 2)) then fmt1 (bytes_value.divNat (1024 ^ 2)) ++ " MB"
  else if bytes_value.ge (.ofNat 1024) then fmt1 (bytes_value.divNat 1024) ++ " KB"
  else fmt1 bytes_value ++ " B"

/-- `DiskManager._format_capacity`, end to end. -/
def format_capacity (capacity_str : String) : String :=
  if capacity_str.isEmpty || capacity_str = "未知" then "未知"
  else
    let stripped := capacity_str.toList.filter (fun c => !(c == ','))
    match searchNumUnit stripped with
    | some r =>
      renderBytes (unitToBytes (pyUpper (String.mk r.2)) (parseDecimal r.1))
    | none =>
      let runs := digitRunsAux stripped []
      if !runs.isEmpty then renderBytes (.ofNat (digitsToNat (maxByLen runs)))
      else String.mk stripped

/-! ## Disk extractor (disk_manager.py: `get_disk_power_state`,
`get_disk_activity`, `check_disk_active`, `get_disks_info`)

The remote host is an environment: per device the raw outputs of the three
non-intrusive queries and the outcome of the expensive probe
`_get_full_disk_info` (`none` = it raised). The extractor's mutable caches
are explicit state. -/

/-- Replace the value at an existing key of an association list in place,
else append (Python `d[k] = v`). -/
def assocPut {β : Type} (l : List (String × β)) (k : String) (v : β) :
    List (String × β) :=
  if k ∈ l.map Prod.fst then l.map (fun p => if p.1 = k then (k, v) else p)
  else l ++ [(k, v)]

/-- One cached `/sys/block/<dev>/stat` observation. `in_flight` is `none`
for entries written by `check_disk_active`, whose cache dict has no such key
(the key is never read anywhere). -/
structure IOEntry where
  read_ios : Int
  write_ios : Int
  in_flight : Option Int
  io_ticks : Int
deriving Repr, DecidableEq

/-- The fields `_get_full_disk_info` fills in. -/
structure DiskFullInfo where
  model : String
  serial : String
  capacity : String
  health : String
  temperature : String
  power_on_hours : String
  attributes : List (String × String)
deriving Repr, DecidableEq

/-- One disk record as built by `get_disks_info` (the caches store complete
copies of these, device and status included, as `disk_info.copy()` does). -/
structure DiskRecord where
  device : String
  status : String
  model : String
  serial : String
  capacity : String
  health : String
  temperature : String
  power_on_hours : String
  attributes : List (String × String)
deriving Repr, DecidableEq

/-- Per-device environment: raw outputs of the sysfs power-state read (with
its `|| echo 'unknown'` fallback), the hdparm query, the stat-counters read,
and the expensive-probe outcome. -/
structure DevEnv where
  powerOut : String
  hdparmOut : String
  statOut : String
  probe : Option DiskFullInfo

/-- `DiskManager.get_disk_power_state`. -/
def get_disk_power_state (e : DevEnv) : String :=
  let state := pyLower (pyStrip e.powerOut)
  if state = "running" ∨ state = "active" then "active"
  else if state = "standby" ∨ state = "sleep" then state
  else
    let h := pyLower e.hdparmOut
    if strContains h "standby" then "standby"
    else if strContains h "sleeping" then "sleep"
    else if strContains h "active/idle" then "active"
    else "unknown"

/-- The body of `get_disk_activity` after the power-state check (lines
194-261): inspect the stat counters against the per-device cache. -/
def get_disk_activity_stats (dev : String) (e : DevEnv)
    (cache : List (String × IOEntry)) : String × List (String × IOEntry) :=
  if e.statOut ≠ "" then
    if (pySplit e.statOut).length ≥ 11 then
      match pyInt ((pySplit e.statOut).getD 8 ""), pyInt ((pySplit e.statOut).getD 9 "") with
      | some in_flight, some io_ticks =>
        if in_flight > 0 then ("活动中", cache)
        else
          match cache.lookup dev with
          | some cached =>
            match pyInt ((pySplit e.statOut).getD 0 ""), pyInt ((pySplit e.statOut).getD 4 "") with
            | some cr, some cw =>
              if cr - cached.read_ios > 0 ∨ cw - cached.write_ios > 0 ∨
                  io_ticks - cached.io_ticks > 100 then
                ("活动中", assocPut cache dev ⟨cr, cw, some in_flight, io_ticks⟩)
              else
                ("空闲中", assocPut cache dev ⟨cr, cw, some in_flight, io_ticks⟩)
            | _, _ => ("活动中", cache)
          | none =>
            match pyInt ((pySplit e.statOut).getD 0 ""), pyInt ((pySplit e.statOut).getD 4 "") with
            | some cr, some cw =>
              ("活动中", assocPut cache dev ⟨cr, cw, some in_flight, io_ticks⟩)
            | _, _ => ("活动中", cache)
      | _, _ => ("活动中", cache)
    else ("活动中", cache)
  else ("活动中", cache)

/-- `DiskManager.get_disk_activity`: 休眠中 when the power state is
standby/sleep, else the stat-counter inspection. -/
def get_disk_activity (dev : String) (e : DevEnv)
    (cache : List (String × IOEntry)) : String × List (String × IOEntry) :=
  let ps := get_disk_power_state e
  if ps = "standby" ∨ ps = "sleep" then ("休眠中", cache)
  else get_disk_activity_stats dev e cache

/-- `DiskManager.check_disk_active`: dormant ⇒ inactive; idle ⇒ re-inspect
counters for recent activity; active/unknown ⇒ active. -/
def check_disk_active (dev : String) (e : DevEnv)
    (cache : List (String × IOEntry)) : Bool × List (String × IOEntry) :=
  let a := get_disk_activity dev e cache
  let cache1 := a.2
  if a.1 = "休眠中" then (false, cache1)
  else if a.1 = "空闲中" then
    if e.statOut ≠ "" then
      if (pySplit e.statOut).length ≥ 11 then
        match pyInt ((pySplit e.statOut).getD 0 ""), pyInt ((pySplit e.statOut).getD 4 ""),
            pyInt ((pySplit e.statOut).getD 9 "") with
        | some cr, some cw, some ct =>
          match cache1.lookup dev with
          | some cached =>
            if cr - cached.read_ios > 0 ∨ cw - cached.write_ios > 0 ∨
                ct - cached.io_ticks > 100 then
              (true, cache1)
            else (false, assocPut cache1 dev ⟨cr, cw, none, ct⟩)
          | none => (false, assocPut cache1 dev ⟨cr, cw, none, ct⟩)
        | _, _, _ => (false, cache1)
      else (false, cache1)
    else (false, cache1)
  else if a.1 = "活动中" then (true, cache1)
  else (true, cache1)

/-- The record built when the device is judged inactive (lines 334-363):
cached expensive fields verbatim, or 未检测 sentinels when never probed. -/
def inactiveRecord (device status : String) (cached : Option DiskRecord) :
    DiskRecord :=
  match cached with
  | some c =>
    ⟨device, status, c.model, c.serial, c.capacity, c.health, c.temperature,
     c.power_on_hours, c.attributes⟩
  | none =>
    ⟨device, status, "未检测", "未检测", "未检测", "未检测", "未检测", "未检测", []⟩

/-- The record built when the expensive probe raises (lines 318-330 and
370-382): `disk_info.update(cached_info)` followed by the field-by-field
falsy fallback, or the 未知/检测失败 sentinels when no cache exists. -/
def probeFailFallback (device status : String) (cached : Option DiskRecord) :
    DiskRecord :=
  match cached with
  | some c =>
    ⟨c.device, c.status,
     if c.model = "" then "未知" else c.model,
     if c.serial = "" then "未知" else c.serial,
     if c.capacity = "" then "未知" else c.capacity,
     if c.health = "" then "检测失败" else c.health,
     if c.temperature = "" then "未知" else c.temperature,
     if c.power_on_hours = "" then "未知" else c.power_on_hours,
     c.attributes⟩
  | none =>
    ⟨device, status, "未知", "未知", "未知", "检测失败", "未知", "未知", []⟩

/-- The record built when the probe succeeds. -/
def probedRecord (device status : String) (info : DiskFullInfo) : DiskRecord :=
  ⟨device, status, info.model, info.serial, info.capacity, info.health,
   info.temperature, info.power_on_hours, info.attributes⟩

/-- The disk manager's mutable state. -/
structure DMState where
  statusCache : List (String × String)
  fullCache : List (String × DiskRecord)
  ioCache : List (String × IOEntry)
  firstRun : Bool
  initialDone : Bool
deriving Repr

/-- The whole-extractor environment: the block-device listing, the
configured ignore list, and the per-device environments. -/
structure DiskEnv where
  lsblkOut : String
  ignoreDisks : String
  dev : String → DevEnv

/-- Parse `lsblk -dno NAME,TYPE` output into (name, type) pairs
(lines 274-279). -/
def parseLsblk (out : String) : List (String × String) :=
  (pySplitOnChar '\n' out).foldr
    (fun line acc =>
      if line ≠ "" then
        let parts := pySplit line
        if parts.length ≥ 2 then (parts.getD 0 "", parts.getD 1 "") :: acc else acc
      else acc) []

/-- The devices the loop actually processes: enumerated, not ignored, and of
type disk/nvme/rom (lines 283-294). -/
def enumerateDevices (env : DiskEnv) : List String :=
  ((parseLsblk env.lsblkOut).filter
    (fun d =>
      !((pySplitOnChar ',' env.ignoreDisks).contains d.1) &&
      (["disk", "nvme", "rom"].contains d.2))).map Prod.fst

/-- The loop body of `get_disks_info` for one device: returns the record
appended to the result, the updated manager state, and whether the expensive
probe was invoked. -/
def processDevice (env : DiskEnv) (st : DMState) (device : String) :
    DiskRecord × DMState × Bool :=
  let e := env.dev device
  let a := get_disk_activity device e st.ioCache
  let status := a.1
  let st1 := {st with ioCache := a.2,
                      statusCache := assocPut st.statusCache device status}
  let cached := st1.fullCache.lookup device
  if st1.firstRun then
    match e.probe with
    | some info =>
      let r := probedRecord device status info
      (r, {st1 with fullCache := assocPut st1.fullCache device r}, true)
    | none => (probeFailFallback device status cached, st1, true)
  else
    let c := check_disk_active device e st1.ioCache
    let st2 := {st1 with ioCache := c.2}
    if !c.1 then
      (inactiveRecord device status cached, st2, false)
    else
      match e.probe with
      | some info =>
        let r := probedRecord device status info
        (r, {st2 with fullCache := assocPut st2.fullCache device r}, true)
      | none => (probeFailFallback device status cached, st2, true)

/-- Fold the loop body over the device list, collecting records and the
probed devices. -/
def processAll (env : DiskEnv) :
    DMState → List String → List DiskRecord × DMState × List String
  | st, [] => ([], st, [])
  | st, d :: ds =>
    let r := processDevice env st d
    let rest := processAll env r.2.1 ds
    (r.1 :: rest.1, rest.2.1, (if r.2.2 then [d] else []) ++ rest.2.2)

/-- `DiskManager.get_disks_info`: process every enumerated device, then
clear the first-run flag (lines 387-391). -/
def get_disks_info (env : DiskEnv) (st : DMState) :
    List DiskRecord × DMState × List String :=
  let r := processAll env st (enumerateDevices env)
  let st1 := r.2.1
  let st2 := if st1.firstRun then {st1 with firstRun := false, initialDone := true}
             else st1
  (r.1, st2, r.2.2)

/-! ## Coordinator command channel (coordinator.py, `run_command`,
`run_command_direct`, `release_ssh_connection`) -/

/-- One remote execution issued over a pooled session: the full command line,
the piped stdin (the elevation password, when any), and the timeout handed to
`ssh.run`. -/
structure RemoteExec where
  command : String
  inputData : Option String
  timeoutSecs : Nat
deriving Repr, DecidableEq

/-- The mutable coordinator fields the embedded operations read and write:
the online flag, the elevation mode and credentials, the pool's in-use flags,
and whether the background retry task is running. -/
structure CoordState where
  systemOnline : Bool
  useSudo : Bool
  rootPassword : String
  password : String
  pool : List Bool
  pingTaskActive : Bool
deriving Repr, DecidableEq

/-- Environment of one `run_command` call: the outcome of
`get_ssh_connection` (`none` = raised; `some (id, pool)` = session `id`
granted, pool contents after acquisition with `id` marked in-use) and the
outcome of the remote execution (`none` = raised, e.g. a timeout). -/
structure CmdEnv where
  conn : Option (Nat × List Bool)
  execOut : Option String

/-- `FlynasCoordinator.release_ssh_connection`: mark the slot free when the
id is in range. -/
def release_ssh_connection (pool : List Bool) (connection_id : Nat) : List Bool :=
  if connection_id < pool.length then pool.set connection_id false else pool

/-- The command-building part of `run_command`: elevation wrapping and the
piped password, exactly as in coordinator.py lines 263-273. -/
def sudoWrap (st : CoordState) (command : String) : String × Option String :=
  if st.useSudo then
    if st.rootPassword ≠ "" ∨ st.password ≠ "" then
      let password := if st.rootPassword ≠ "" then st.rootPassword else st.password
      ("sudo -S " ++ command, some (password ++ "\n"))
    else ("sudo " ++ command, none)
  else (command, none)

/-- `FlynasCoordinator.run_command`: returns the stripped stdout (or "" when
offline or when anything raises), the resulting coordinator state, and the
list of remote executions issued. -/
def run_command (st : CoordState) (env : CmdEnv) (command : String) :
    String × CoordState × List RemoteExec :=
  if !st.systemOnline then ("", st, [])
  else
    match env.conn with
    | none => ("", st, [])
    | some (cid, poolAcq) =>
      let st1 := {st with pool := poolAcq}
      let fc := sudoWrap st command
      let ex : RemoteExec := ⟨fc.1, fc.2, 10⟩
      let out := match env.execOut with
        | some o => pyStrip o
        | none => ""
      let st2 := {st1 with pool := release_ssh_connection st1.pool cid}
      (out, st2, [ex])

/-- `FlynasCoordinator.run_command_direct`: the source duplicates the body of
`run_command` verbatim, so the model does too. -/
def run_command_direct (st : CoordState) (env : CmdEnv) (command : String) :
    String × CoordState × List RemoteExec :=
  if !st.systemOnline then ("", st, [])
  else
    match env.conn with
    | none => ("", st, [])
    | some (cid, poolAcq) =>
      let st1 := {st with pool := poolAcq}
      let fc := sudoWrap st command
      let ex : RemoteExec := ⟨fc.1, fc.2, 10⟩
      let out := match env.execOut with
        | some o => pyStrip o
        | none => ""
      let st2 := {st1 with pool := release_ssh_connection st1.pool cid}
      (out, st2, [ex])

/-! ## VM control (vm_manager.py, `control_vm`) -/

/-- Python exceptions surfaced by the embedded operations. -/
inductive PyError where
  | valueError (msg : String)
deriving Repr, DecidableEq

/-- The literal `valid_actions` list of `VMManager.control_vm`. -/
def valid_actions : List String := ["start", "shutdown", "reboot", "destroy"]

/-- `VMManager.control_vm`: `runOutcome` is the outcome of the awaited
`coordinator.run_command` call (`none` = it raised, which the except clause
turns into `False`). Returns the result (raised `ValueError` or a boolean)
and the list of remote commands issued. -/
def control_vm (vm_name action : String) (runOutcome : Option String) :
    Except PyError Bool × List String :=
  if !(valid_actions.contains action) then
    (.error (.valueError ("无效操作: " ++ action)), [])
  else
    let command := "virsh " ++ action ++ " " ++ vm_name
    match runOutcome with
    | some _ => (.ok true, [command])
    | none => (.ok false, [command])

/-! ## Snapshot orchestrator (coordinator.py, `get_default_data`,
`_async_update_data`) -/

/-- Python values as stored in the published snapshot. -/
inductive PyVal where
  | str : String → PyVal
  | list : List PyVal → PyVal
  | dict : List (String × PyVal) → PyVal

/-- The keys of a modelled Python dict. -/
def dictKeys (d : List (String × PyVal)) : List String := d.map Prod.fst

/-- Python `{**d, k: v}`: replace the value at an existing key in place, else
append the new binding. -/
def dictSet (d : List (String × PyVal)) (k : String) (v : PyVal) :
    List (String × PyVal) :=
  if k ∈ dictKeys d then d.map (fun p => if p.1 = k then (k, v) else p)
  else d ++ [(k, v)]

/-- `FlynasCoordinator.get_default_data` verbatim. -/
def get_default_data : List (String × PyVal) :=
  [("disks", .list []),
   ("system", .dict [("uptime", .str "未知"),
                     ("cpu_temperature", .str "未知"),
                     ("motherboard_temperature", .str "未知"),
                     ("status", .str "off")]),
   ("ups", .dict []),
   ("vms", .list []),
   ("docker_containers", .list []),
   ("zpools", .list []),
   ("scrub_status", .dict [])]

/-- What the online path of `_async_update_data` gathers when it completes
without raising: the system dict and the other six extractor results. -/
structure OnlinePayload where
  system : List (String × PyVal)
  disks : PyVal
  ups : PyVal
  vms : PyVal
  dockerContainers : PyVal
  zpools : PyVal
  scrubStatus : PyVal

/-- Environment of one `_async_update_data` tick: the liveness-probe result
and the outcome of the whole online try-block (pool warm-up plus extractors).
An exception carries the pool contents at raise time; success carries the
payload and the pool contents at completion. -/
structure UpdateEnv where
  pingOk : Bool
  onlineResult : Except (List Bool) (OnlinePayload × List Bool)

/-- The `data = {...}` dict built at coordinator.py lines 428-436. -/
def buildSnapshot (p : OnlinePayload) : List (String × PyVal) :=
  [("disks", p.disks),
   ("system", .dict (dictSet p.system "status" (.str "on"))),
   ("ups", p.ups),
   ("vms", p.vms),
   ("docker_containers", p.dockerContainers),
   ("zpools", p.zpools),
   ("scrub_status", p.scrubStatus)]

/-- `FlynasCoordinator._async_update_data`: probe, offline short-circuit
(arm the retry task, close all pooled sessions, default snapshot), online
path, and the exception handler (force offline, arm the retry task, default
snapshot — the handler does NOT close the pooled sessions). -/
def async_update_data (st : CoordState) (env : UpdateEnv) :
    List (String × PyVal) × CoordState :=
  let st1 := {st with systemOnline := env.pingOk}
  if !env.pingOk then
    (get_default_data, {st1 with pingTaskActive := true, pool := []})
  else
    match env.onlineResult with
    | .ok pr => (buildSnapshot pr.1, {st1 with pool := pr.2})
    | .error poolAtRaise =>
      (get_default_data,
       {st1 with systemOnline := false, pingTaskActive := true, pool := poolAtRaise})

/-- A coordinator state used as concrete input in counterexamples and
witnesses: online, no elevation, one free pooled session, no retry task. -/
def sampleState : CoordState where
  systemOnline := true
  useSudo := false
  rootPassword := ""
  password := ""
  pool := [false]
  pingTaskActive := false

/-- An update environment where the probe succeeds and the online path then
raises while the pool holds one (free) session. -/
def sampleRaiseEnv : UpdateEnv where
  pingOk := true
  onlineResult := .error [false]

/-- A per-device environment whose sysfs power state reads "standby", so the
device is dormant; its probe outcome is irrelevant there. -/
def dormantDevEnv : DevEnv := ⟨"standby", "", "", none⟩

/-- A concrete extractor environment: one disk-typed device "sda" (plus one
filtered loop device), nothing ignored, every device dormant. -/
def diskEnvW : DiskEnv := ⟨"sda disk\nloop0 loop", "", fun _ => dormantDevEnv⟩

/-- The manager state on the very first poll. -/
def dmStateFirst : DMState := ⟨[], [], [], true, false⟩

/-- The manager state on a later poll (first run done, empty caches). -/
def dmStateLater : DMState := ⟨[], [], [], false, true⟩

/-! ## Theorems -/

/-- Setting a key in a modelled Python dict makes the key present. -/
theorem mem_dictKeys_dictSet (d : List (String × PyVal)) (k : String) (v : PyVal) :
    k ∈ dictKeys (dictSet d k v) := by
  unfold dictSet
  split
  · rename_i h
    unfold dictKeys at h ⊢
    obtain ⟨p, hp, hpk⟩ := List.mem_map.mp h
    refine List.mem_map.mpr ⟨(k, v), ?_, rfl⟩
    refine List.mem_map.mpr ⟨p, hp, ?_⟩
    simp [hpk]
  · unfold dictKeys
    simp

/-- Case equation: probe failed. -/
theorem async_update_data_offline (st : CoordState) (env : UpdateEnv)
    (h : env.pingOk = false) :
    async_update_data st env =
      (get_default_data,
       {st with systemOnline := false, pingTaskActive := true, pool := []}) := by
  unfold async_update_data
  rw [h]
  rfl

/-- Case equation: probe succeeded and the online path completed. -/
theorem async_update_data_ok (st : CoordState) (env : UpdateEnv)
    (pr : OnlinePayload × List Bool) (hp : env.pingOk = true)
    (ho : env.onlineResult = .ok pr) :
    async_update_data st env =
      (buildSnapshot pr.1, {st with systemOnline := true, pool := pr.2}) := by
  unfold async_update_data
  rw [hp, ho]
  rfl

/-- Case equation: probe succeeded but the online path raised. -/
theorem async_update_data_error (st : CoordState) (env : UpdateEnv)
    (q : List Bool) (hp : env.pingOk = true)
    (he : env.onlineResult = .error q) :
    async_update_data st env =
      (get_default_data,
       {st with systemOnline := false, pingTaskActive := true, pool := q}) := by
  unfold async_update_data
  rw [hp, he]
  rfl

/-- Structural completeness of the default snapshot. -/
theorem snapshot_keys_default :
    ("disks" ∈ dictKeys get_default_data ∧
     "system" ∈ dictKeys get_default_data ∧
     "ups" ∈ dictKeys get_default_data ∧
     "vms" ∈ dictKeys get_default_data ∧
     "docker_containers" ∈ dictKeys get_default_data ∧
     "zpools" ∈ dictKeys get_default_data ∧
     "scrub_status" ∈ dictKeys get_default_data) ∧
    (∃ d, (get_default_data.lookup "system") = some (.dict d) ∧
      "status" ∈ dictKeys d) := by
  refine ⟨by simp [get_default_data, dictKeys], ⟨_, rfl, ?_⟩⟩
  simp [dictKeys]

/-- Structural completeness of the online snapshot. -/
theorem snapshot_keys_build (p : OnlinePayload) :
    ("disks" ∈ dictKeys (buildSnapshot p) ∧
     "system" ∈ dictKeys (buildSnapshot p) ∧
     "ups" ∈ dictKeys (buildSnapshot p) ∧
     "vms" ∈ dictKeys (buildSnapshot p) ∧
     "docker_containers" ∈ dictKeys (buildSnapshot p) ∧
     "zpools" ∈ dictKeys (buildSnapshot p) ∧
     "scrub_status" ∈ dictKeys (buildSnapshot p)) ∧
    (∃ d, ((buildSnapshot p).lookup "system") = some (.dict d) ∧
      "status" ∈ dictKeys d) := by
  refine ⟨by simp [buildSnapshot, dictKeys], ?_⟩
  exact ⟨dictSet p.system "status" (.str "on"), rfl, mem_dictKeys_dictSet _ _ _⟩

/-- Claim C1: every value returned by `_async_update_data` — offline,
online success, or exception during the online path — contains all seven
snapshot keys, and its "system" value is a dict containing a "status" key. -/
theorem c1_snapshot_always_complete (st : CoordState) (env : UpdateEnv) :
    ("disks" ∈ dictKeys (async_update_data st env).1 ∧
     "system" ∈ dictKeys (async_update_data st env).1 ∧
     "ups" ∈ dictKeys (async_update_data st env).1 ∧
     "vms" ∈ dictKeys (async_update_data st env).1 ∧
     "docker_containers" ∈ dictKeys (async_update_data st env).1 ∧
     "zpools" ∈ dictKeys (async_update_data st env).1 ∧
     "scrub_status" ∈ dictKeys (async_update_data st env).1) ∧
    (∃ d, ((async_update_data st env).1.lookup "system") = some (.dict d) ∧
      "status" ∈ dictKeys d) := by
  cases hping : env.pingOk
  · rw [async_update_data_offline st env hping]
    exact snapshot_keys_default
  · cases hres : env.onlineResult with
    | ok pr =>
      rw [async_update_data_ok st env pr hping hres]
      exact snapshot_keys_build pr.1
    | error q =>
      rw [async_update_data_error st env q hping hres]
      exact snapshot_keys_default

/-- Counterexample for C2: when the online path raises, the exception
handler of `_async_update_data` does not close the pooled sessions (only the
failed-probe path does), so the behaviour is not identical to a failed
liveness probe: with one pooled session and an exception, the pool is left
with that session instead of being emptied. -/
theorem c2_exception_counterexample :
    (async_update_data sampleState sampleRaiseEnv).2.systemOnline = false ∧
    (async_update_data sampleState sampleRaiseEnv).2.pingTaskActive = true ∧
    (async_update_data sampleState sampleRaiseEnv).1 = get_default_data ∧
    (async_update_data sampleState sampleRaiseEnv).2.pool = [false] ∧
    ¬ (async_update_data sampleState sampleRaiseEnv).2.pool = [] := by
  refine ⟨rfl, rfl, rfl, rfl, ?_⟩
  intro h
  rw [show (async_update_data sampleState sampleRaiseEnv).2.pool = [false] from rfl] at h
  exact List.noConfusion h

/-- Claim C2 (amended): if any exception is raised during the online update
path, `_async_update_data` forces the system-online flag to false, arms the
background retry loop, and returns the default snapshot (system.status =
"off", disks = []) — but, unlike a failed liveness probe, it does not close
the pooled sessions: the pool is left exactly as it was when the exception
was raised. -/
theorem c2_exception_amended (st : CoordState) (env : UpdateEnv)
    (hping : env.pingOk = true) (p : List Bool)
    (herr : env.onlineResult = .error p) :
    (async_update_data st env).1 = get_default_data ∧
    ((async_update_data st env).1.lookup "disks") = some (.list []) ∧
    (∃ d, ((async_update_data st env).1.lookup "system") = some (.dict d) ∧
      d.lookup "status" = some (.str "off")) ∧
    (async_update_data st env).2.systemOnline = false ∧
    (async_update_data st env).2.pingTaskActive = true ∧
    (async_update_data st env).2.pool = p := by
  rw [async_update_data_error st env p hping herr]
  exact ⟨rfl, rfl, ⟨_, rfl, rfl⟩, rfl, rfl, rfl⟩

/-- Witness for C2 (amended), at the concrete raising environment. -/
theorem c2_exception_amended_witness :
    (async_update_data sampleState sampleRaiseEnv).2.pool = [false] :=
  (c2_exception_amended sampleState sampleRaiseEnv rfl [false] rfl).2.2.2.2.2

/-- Claim C8: `run_command` issues every remote execution with a hard
10-second timeout, returns the empty string whenever connection acquisition
or the remote execution raises, and releases the acquired pool connection
back to the pool in every case. -/
theorem c8_run_command_spec (st : CoordState) (env : CmdEnv) (command : String) :
    (∀ ex ∈ (run_command st env command).2.2, ex.timeoutSecs = 10) ∧
    ((env.conn = none ∨ env.execOut = none) → (run_command st env command).1 = "") ∧
    (∀ cid poolAcq, env.conn = some (cid, poolAcq) → cid < poolAcq.length →
      st.systemOnline = true →
      ((run_command st env command).2.1.pool)[cid]? = some false) := by
  unfold run_command
  cases hon : st.systemOnline
  · simp
  · cases hconn : env.conn with
    | none => simp
    | some c =>
      obtain ⟨cid, poolAcq⟩ := c
      refine ⟨?_, ?_, ?_⟩
      · intro ex hex
        simp at hex
        subst hex
        rfl
      · intro h
        rcases h with h | h
        · simp [hconn] at h
        · simp [h]
      · intro cid2 pool2 heq hlt _
        simp at heq
        obtain ⟨h1, h2⟩ := heq
        subst h1; subst h2
        simp [release_ssh_connection, hlt, List.getElem?_set_eq_of_lt]

/-- Witness for C8: online state, session 0 acquired, remote execution
raises — the result is "", the single execution carried timeout 10, and
slot 0 is free again afterwards. -/
theorem c8_run_command_spec_witness :
    (run_command sampleState ⟨some (0, [true]), none⟩ "ls").1 = "" ∧
    ((run_command sampleState ⟨some (0, [true]), none⟩ "ls").2.1.pool)[0]? =
      some false ∧
    ∀ ex ∈ (run_command sampleState ⟨some (0, [true]), none⟩ "ls").2.2,
      ex.timeoutSecs = 10 :=
  ⟨(c8_run_command_spec sampleState ⟨some (0, [true]), none⟩ "ls").2.1 (Or.inr rfl),
   (c8_run_command_spec sampleState ⟨some (0, [true]), none⟩ "ls").2.2 0 [true]
     rfl (by decide) rfl,
   (c8_run_command_spec sampleState ⟨some (0, [true]), none⟩ "ls").1⟩

/-- Claim C9: `control_vm` raises ValueError for every action outside
{start, shutdown, reboot, destroy} before issuing any remote command, and
for a valid action issues exactly the mapped command and returns a boolean. -/
theorem c9_control_vm_spec (vm_name action : String) (r : Option String) :
    (action ∉ valid_actions →
      control_vm vm_name action r =
        (.error (.valueError ("无效操作: " ++ action)), [])) ∧
    (action ∈ valid_actions →
      (control_vm vm_name action r).2 = ["virsh " ++ action ++ " " ++ vm_name] ∧
      ∃ b : Bool, (control_vm vm_name action r).1 = .ok b) := by
  constructor
  · intro h
    unfold control_vm
    rw [if_pos]
    simp only [Bool.not_eq_true', ← Bool.not_eq_true, List.elem_iff]
    exact fun hc => h hc
  · intro h
    unfold control_vm
    rw [if_neg]
    · cases r <;> exact ⟨rfl, _, rfl⟩
    · simp only [Bool.not_eq_true', ← Bool.not_eq_true, List.elem_iff]
      exact fun hc => hc h

/-- Witness for C9: "pause" is rejected as ValueError with no command issued;
"start" issues exactly "virsh start vm1" and returns a boolean. -/
theorem c9_control_vm_spec_witness :
    control_vm "vm1" "pause" none =
      (.error (.valueError "无效操作: pause"), []) ∧
    ((control_vm "vm1" "start" (some "")).2 = ["virsh start vm1"] ∧
      ∃ b : Bool, (control_vm "vm1" "start" (some "")).1 = .ok b) :=
  ⟨(c9_control_vm_spec "vm1" "pause" none).1 (by decide),
   (c9_control_vm_spec "vm1" "start" (some "")).2 (by decide)⟩

/-- Claim C10: when the system-online flag is false, `run_command` and
`run_command_direct` return "" immediately, leave the coordinator state
(including the pool) untouched, and issue no remote execution. -/
theorem c10_offline_short_circuit (st : CoordState) (env : CmdEnv)
    (command : String) (h : st.systemOnline = false) :
    run_command st env command = ("", st, []) ∧
    run_command_direct st env command = ("", st, []) := by
  unfold run_command run_command_direct
  rw [h]
  exact ⟨rfl, rfl⟩

/-- Witness for C10 at a concrete offline state. -/
theorem c10_offline_short_circuit_witness :
    run_command ⟨false, false, "", "", [true, false], false⟩
        ⟨some (0, [true, true]), some "out"⟩ "uptime" =
      ("", ⟨false, false, "", "", [true, false], false⟩, []) ∧
    run_command_direct ⟨false, false, "", "", [true, false], false⟩
        ⟨some (0, [true, true]), some "out"⟩ "uptime" =
      ("", ⟨false, false, "", "", [true, false], false⟩, []) :=
  c10_offline_short_circuit ⟨false, false, "", "", [true, false], false⟩
    ⟨some (0, [true, true]), some "out"⟩ "uptime" rfl

/-- Claim C3: the disk health-string mapping is total: each of the eleven
documented inputs (case-insensitively, after trimming) maps to exactly one
element of the closed Chinese vocabulary, every output lies in that
vocabulary, and every input whose trimmed upper-cased form is not a key of
the map is sent to 未知. -/
theorem c3_health_map_total :
    (mapHealth " passed " = "良好" ∧ mapHealth "PASS" = "良好" ∧
     mapHealth "ok" = "良好" ∧ mapHealth "Good" = "良好" ∧
     mapHealth "FAILED" = "故障" ∧ mapHealth "fail" = "故障" ∧
     mapHealth "Error" = "错误" ∧ mapHealth "warning" = "警告" ∧
     mapHealth "CRITICAL" = "严重" ∧ mapHealth "unknown" = "未知" ∧
     mapHealth "not available" = "不可用") ∧
    (∀ s : String,
      mapHealth s ∈ ["良好", "故障", "错误", "警告", "严重", "未知", "不可用"]) ∧
    (∀ s : String, pyUpper (pyStrip s) ∉ health_map.map Prod.fst →
      mapHealth s = "未知") := by
  refine ⟨by decide, ?_, ?_⟩
  · intro s
    unfold mapHealth health_map
    simp [List.lookup]
    repeat' split <;> simp_all
  · intro s h
    unfold health_map at h
    simp only [List.map_cons, List.map_nil, List.mem_cons, List.not_mem_nil, or_false,
      not_or] at h
    obtain ⟨h1, h2, h3, h4, h5, h6, h7, h8, h9, h10, h11⟩ := h
    simp [mapHealth, health_map, List.lookup,
      beq_eq_false_iff_ne.mpr h1, beq_eq_false_iff_ne.mpr h2, beq_eq_false_iff_ne.mpr h3,
      beq_eq_false_iff_ne.mpr h4, beq_eq_false_iff_ne.mpr h5, beq_eq_false_iff_ne.mpr h6,
      beq_eq_false_iff_ne.mpr h7, beq_eq_false_iff_ne.mpr h8, beq_eq_false_iff_ne.mpr h9,
      beq_eq_false_iff_ne.mpr h10, beq_eq_false_iff_ne.mpr h11]

/-- Witness for C3: a concrete unrecognized input is mapped to 未知. -/
theorem c3_health_map_total_witness : mapHealth "smart says hi" = "未知" :=
  c3_health_map_total.2.2 "smart says hi" (by decide)

/-- Claim C4: capacity normalization re-renders a parsed numeric+unit
capacity string at binary (1024) scale as the largest fitting unit with one
decimal place: any byte value in the GB band renders with the "GB" suffix,
and in particular the two documented inputs give "931.5 GB" and "2.0 TB". -/
theorem c4_format_capacity :
    format_capacity "1,000,204,886,016 bytes" = "931.5 GB" ∧
    format_capacity "2 TB" = "2.0 TB" ∧
    (∀ q : Frac, q.ge (.ofNat (1024 ^ 3)) → ¬ q.ge (.ofNat (1024 ^ 4)) →
      ∃ s, renderBytes q = s ++ " GB") := by
  refine ⟨by decide, by decide, ?_⟩
  intro q h1 h2
  unfold renderBytes
  rw [if_neg h2, if_pos h1]
  exact ⟨_, rfl⟩

/-- Witness for C4: the GB-band clause at the concrete value 2·1024³ bytes. -/
theorem c4_format_capacity_witness :
    ∃ s, renderBytes (.ofNat (2 * 1024 ^ 3)) = s ++ " GB" :=
  c4_format_capacity.2.2 (.ofNat (2 * 1024 ^ 3)) (by decide) (by decide)

/-- Counterexample for C7: the code accepts "/vol-a" although its remainder
"-a" is not alphanumeric, so the claimed acceptance criterion (root-level
exactly for empty, purely numeric, or short alphanumeric remainders) does not
coincide with `is_root_vol_mount`. -/
theorem c7_root_vol_counterexample :
    (is_root_vol_mount "/vol-a" = true ∧ specRootVolCriterion "/vol-a" = false) ∧
    ¬ (∀ s : String, is_root_vol_mount s = specRootVolCriterion s) := by
  refine ⟨by decide, fun h => ?_⟩
  have h2 := h "/vol-a"
  rw [show is_root_vol_mount "/vol-a" = true from by decide,
    show specRootVolCriterion "/vol-a" = false from by decide] at h2
  exact Bool.noConfusion h2

/-- Claim C7 (amended): `is_root_vol_mount` accepts a mount point exactly when
it starts with "/vol" and the remainder is empty, purely numeric, or a short
(≤3 character) suffix containing no further path separator (the suffix need
not be alphanumeric); in particular "/vol1" and "/vol2" qualify and
"/vol1/docker/overlay2/abc" does not. -/
theorem c7_root_vol_amended :
    (∀ s : String, is_root_vol_mount s = amendedRootVolCriterion s) ∧
    is_root_vol_mount "/vol1" = true ∧ is_root_vol_mount "/vol2" = true ∧
    is_root_vol_mount "/vol1/docker/overlay2/abc" = false := by
  refine ⟨?_, by decide, by decide, by decide⟩
  intro s
  unfold is_root_vol_mount amendedRootVolCriterion
  cases hem : s.isEmpty
  · cases hst : pyStartsWith s "/vol" <;>
    cases hre : (s.drop 4).isEmpty <;>
    cases hdig : pyIsDigit (s.drop 4) <;>
    cases hc : (s.drop 4).toList.contains '/' <;>
    cases hlen : decide ((s.drop 4).length ≤ 3) <;>
    simp_all
  · have hs : s = "" := (String.isEmpty_iff s).mp hem
    subst hs
    decide

/-- Under standby/sleep power state, `get_disk_activity` reports 休眠中 and
leaves the I/O-stat cache untouched, whatever its contents. -/
theorem dormant_eval {e : DevEnv}
    (h : get_disk_power_state e = "standby" ∨ get_disk_power_state e = "sleep") :
    ∀ (dev : String) (cache : List (String × IOEntry)),
      get_disk_activity dev e cache = ("休眠中", cache) := by
  intro dev cache
  unfold get_disk_activity
  rw [if_pos h]

/-- The stat-counter inspection never reports 休眠中. -/
theorem stats_ne_dormant (dev : String) (e : DevEnv)
    (cache : List (String × IOEntry)) :
    (get_disk_activity_stats dev e cache).1 ≠ "休眠中" := by
  unfold get_disk_activity_stats
  repeat' split
  all_goals simp

/-- Conversely, a 休眠中 report can only come from a standby/sleep power
state (dormancy is independent of the I/O-stat cache). -/
theorem dormant_power {dev : String} {e : DevEnv}
    {cache : List (String × IOEntry)}
    (h : (get_disk_activity dev e cache).1 = "休眠中") :
    get_disk_power_state e = "standby" ∨ get_disk_power_state e = "sleep" := by
  by_cases hc : get_disk_power_state e = "standby" ∨ get_disk_power_state e = "sleep"
  · exact hc
  · exfalso
    unfold get_disk_activity at h
    rw [if_neg hc] at h
    exact stats_ne_dormant dev e cache h

/-- Under dormancy, `check_disk_active` reports inactive and leaves the
I/O-stat cache untouched. -/
theorem check_dormant {e : DevEnv}
    (h : get_disk_power_state e = "standby" ∨ get_disk_power_state e = "sleep")
    (dev : String) (cache : List (String × IOEntry)) :
    check_disk_active dev e cache = (false, cache) := by
  unfold check_disk_active
  rw [dormant_eval h]
  simp

/-- Case equation for the loop body on a dormant device after the first run:
the cached-or-sentinel record is returned, only the status cache changes, and
the probe flag is false. -/
theorem processDevice_dormant (env : DiskEnv) (st : DMState) (d : String)
    (hfr : st.firstRun = false)
    (h : get_disk_power_state (env.dev d) = "standby" ∨
         get_disk_power_state (env.dev d) = "sleep") :
    processDevice env st d =
      (inactiveRecord d "休眠中" (st.fullCache.lookup d),
       {st with statusCache := assocPut st.statusCache d "休眠中"},
       false) := by
  unfold processDevice
  simp only [dormant_eval h, hfr, check_dormant h]
  simp

/-- Claim C6: on every poll after the first, a device whose activity is
dormant (休眠中) is never probed, its full-info cache entry is left
unchanged, and the returned record carries the cached model, serial,
capacity, health, temperature, power-on hours and attributes from the last
successful probe — or the 未检测 sentinels when the device was never
probed. -/
theorem c6_dormant_frame (env : DiskEnv) (st : DMState) (d : String)
    (hfr : st.firstRun = false)
    (hdorm : (get_disk_activity d (env.dev d) st.ioCache).1 = "休眠中") :
    (processDevice env st d).1.status = "休眠中" ∧
    (processDevice env st d).2.2 = false ∧
    (processDevice env st d).2.1.fullCache = st.fullCache ∧
    (processDevice env st d).2.1.ioCache = st.ioCache ∧
    (∀ c, st.fullCache.lookup d = some c →
      (processDevice env st d).1 =
        ⟨d, "休眠中", c.model, c.serial, c.capacity, c.health, c.temperature,
         c.power_on_hours, c.attributes⟩) ∧
    (st.fullCache.lookup d = none →
      (processDevice env st d).1 =
        ⟨d, "休眠中", "未检测", "未检测", "未检测", "未检测", "未检测", "未检测", []⟩) := by
  have hpow := dormant_power hdorm
  rw [processDevice_dormant env st d hfr hpow]
  refine ⟨?_, rfl, rfl, rfl, ?_, ?_⟩
  · cases hl : st.fullCache.lookup d <;> simp [inactiveRecord, hl]
  · intro c hc
    simp [inactiveRecord, hc]
  · intro hc
    simp [inactiveRecord, hc]

/-- Witness for C6: a dormant never-probed device on a later poll yields the
sentinel record, no probe, and an unchanged full-info cache. -/
theorem c6_dormant_frame_witness :
    (processDevice diskEnvW dmStateLater "sda").2.2 = false ∧
    (processDevice diskEnvW dmStateLater "sda").2.1.fullCache =
      dmStateLater.fullCache ∧
    (processDevice diskEnvW dmStateLater "sda").1 =
      ⟨"sda", "休眠中", "未检测", "未检测", "未检测", "未检测", "未检测", "未检测", []⟩ :=
  ⟨(c6_dormant_frame diskEnvW dmStateLater "sda" rfl (by decide)).2.1,
   (c6_dormant_frame diskEnvW dmStateLater "sda" rfl (by decide)).2.2.1,
   (c6_dormant_frame diskEnvW dmStateLater "sda" rfl (by decide)).2.2.2.2.2 rfl⟩

/-- On a first-run state the loop body always invokes the probe and leaves
the first-run flag set. -/
theorem processDevice_firstRun (env : DiskEnv) (st : DMState) (d : String)
    (h : st.firstRun = true) :
    (processDevice env st d).2.2 = true ∧
    (processDevice env st d).2.1.firstRun = true := by
  unfold processDevice
  simp only [h]
  cases (env.dev d).probe <;> simp [h]

/-- Lifting over the device list: on a first-run state every processed
device is probed. -/
theorem processAll_firstRun (env : DiskEnv) :
    ∀ (ds : List String) (st : DMState), st.firstRun = true →
      (∀ d ∈ ds, d ∈ (processAll env st ds).2.2) ∧
      (processAll env st ds).2.1.firstRun = true := by
  intro ds
  induction ds with
  | nil =>
    intro st h
    exact ⟨by simp [processAll], by unfold processAll; exact h⟩
  | cons d ds ih =>
    intro st h
    obtain ⟨hp, hfr⟩ := processDevice_firstRun env st d h
    obtain ⟨ihmem, ihfr⟩ := ih (processDevice env st d).2.1 hfr
    constructor
    · intro x hx
      unfold processAll
      rcases List.mem_cons.mp hx with rfl | hx2
      · simp [hp]
      · exact List.mem_append.mpr (Or.inr (ihmem x hx2))
    · unfold processAll
      exact ihfr

/-- Claim C5: on the first ever call to `get_disks_info` (first-run flag
set), the expensive probe is invoked for every enumerated, non-ignored,
disk-typed device regardless of its activity, and afterwards the first-run
flag is cleared. -/
theorem c5_first_run_probes_all (env : DiskEnv) (st : DMState)
    (hfr : st.firstRun = true) :
    (∀ d ∈ enumerateDevices env, d ∈ (get_disks_info env st).2.2) ∧
    (get_disks_info env st).2.1.firstRun = false := by
  obtain ⟨hmem, hfr2⟩ := processAll_firstRun env (enumerateDevices env) st hfr
  constructor
  · intro d hd
    unfold get_disks_info
    simpa using hmem d hd
  · unfold get_disks_info
    simp [hfr2]

/-- Witness for C5: with one enumerated dormant disk "sda" (and a filtered
loop device), the first poll probes "sda" and clears the flag. -/
theorem c5_first_run_probes_all_witness :
    "sda" ∈ (get_disks_info diskEnvW dmStateFirst).2.2 ∧
    (get_disks_info diskEnvW dmStateFirst).2.1.firstRun = false :=
  ⟨(c5_first_run_probes_all diskEnvW dmStateFirst rfl).1 "sda" (by decide),
   (c5_first_run_probes_all diskEnvW dmStateFirst rfl).2⟩

end FnNas
